import Mathlib

/-!
Shallow embedding of the Flask "database starter" repository, parts 4 and 5.

Part 4 (`src/part-4/app.py`) is a books REST API backed by a SQLite table.
The database table is modelled as a `List Book` in natural (insertion / rowid)
order; each route handler becomes a pure function from the table and the
request parameters to a response value (and, for mutations, the new table).
Fallible handlers return `Except` (`Except.error` models an uncaught Python
exception propagating out of the handler as a 500).

Part 5 (`src/part-5/app.py`) is a products app whose `index` route catches
`OperationalError` from the persistence layer.
-/

/-- The `Book` model (src/part-4/app.py lines 45-51): `id` primary key,
`title` and `author` non-nullable strings, `year` a nullable integer,
`isbn` a nullable unique string, `created_at` a timestamp (modelled as a
`Nat`; its value never influences any route logic). -/
structure Book where
  id : Nat
  title : String
  author : String
  year : Option Int
  isbn : Option String
  created_at : Nat
  deriving DecidableEq

/-- The column (field) names of the `Book` model, in declaration order. -/
def bookColumns : List String :=
  ["id", "title", "author", "year", "isbn", "created_at"]

/-- Whether `s` names a column of `Book`. -/
def isBookColumn (s : String) : Bool := bookColumns.contains s

/-- Model of Python `hasattr(Book, s)` restricted to the attributes written
in the source class: the six columns plus the method `to_dict`
(src/part-4/app.py line 53). Framework-injected attributes of `db.Model`
behave exactly like `to_dict` here: `hasattr` accepts them although they are
not columns. -/
def hasattrBook (s : String) : Bool := isBookColumn s || s == "to_dict"

/-- Boolean order on nullable column values: SQL `NULL` sorts first in
ascending order (SQLite default). -/
def optLe {α : Type} [LE α] [∀ a b : α, Decidable (a ≤ b)] :
    Option α → Option α → Bool
  | none, _ => true
  | some _, none => false
  | some a, some b => decide (a ≤ b)

/-- Ascending comparison used by `ORDER BY <column> ASC` for each column of
`Book`. Strings compare lexicographically (byte order on ASCII data, as in
SQLite's default BINARY collation). A name that is not a column yields the
trivial relation; it is never used on that branch of `get_books`. -/
def colLe (f : String) (a b : Book) : Bool :=
  if f == "id" then decide (a.id ≤ b.id)
  else if f == "title" then decide (a.title ≤ b.title)
  else if f == "author" then decide (a.author ≤ b.author)
  else if f == "year" then optLe a.year b.year
  else if f == "isbn" then optLe a.isbn b.isbn
  else if f == "created_at" then decide (a.created_at ≤ b.created_at)
  else true

/-- Comparison selected by `get_books` (src/part-4/app.py line 80):
`column.desc()` when `order == 'desc'`, else `column.asc()`. Descending is
the reversed comparison; equal keys compare `true` both ways, so a stable
sort keeps their natural order in either direction. -/
def bookLe (f o : String) (a b : Book) : Bool :=
  if o == "desc" then colLe f b a else colLe f a b

/-- Equality of the values of sort column `f` on two books. -/
def sortFieldEq (f : String) (a b : Book) : Bool :=
  if f == "id" then a.id == b.id
  else if f == "title" then a.title == b.title
  else if f == "author" then a.author == b.author
  else if f == "year" then a.year == b.year
  else if f == "isbn" then a.isbn == b.isbn
  else if f == "created_at" then a.created_at == b.created_at
  else true

/-- Page normalization performed by flask-sqlalchemy `paginate` with
`error_out=False`: a page below 1 becomes 1. -/
def normPage (page : Int) : Int := if page < 1 then 1 else page

/-- Per-page normalization performed by flask-sqlalchemy `paginate` with
`error_out=False`: a per_page below 1 becomes the library default 20. -/
def normPerPage (pp : Int) : Int := if pp < 1 then 20 else pp

/-- The window `[(page-1)*pp, page*pp)` of a list, as computed by
`paginate`: `query.limit(per_page).offset((page-1)*per_page)`. -/
def pageSlice (l : List Book) (page pp : Int) : List Book :=
  (l.drop ((page - 1) * pp).toNat).take pp.toNat

/-- JSON body returned by `GET /api/books` (src/part-4/app.py lines 84-90).
`page` and `per_page` echo the raw request values, not the normalized ones. -/
structure BooksResp where
  success : Bool
  page : Int
  per_page : Int
  total : Nat
  books : List Book
  deriving DecidableEq

/-- Handler `get_books` (src/part-4/app.py lines 68-90). `page` and
`per_page` arrive already parsed by `request.args.get(..., type=int)`
(default 1 and 5 when absent or unparsable). If `sort` names an attribute of
`Book` that is not a column (for example `to_dict`), `order_by` receives a
non-column object and raises, modelled as `Except.error`; if it names no
attribute at all, the `hasattr` guard skips sorting. `paginate` is modelled
with `error_out=False` semantics: it normalizes out-of-range `page` and
`per_page` instead of failing, and `pagination.total` is the pre-slice
count. SQLite leaves the relative order of rows with equal sort keys
unspecified — for example a reverse scan of the unique isbn index returns
NULL-isbn ties in reverse insertion order — so the stable `mergeSort` used
here is only one ordering the engine may produce. The theorems proved from
this definition (window arithmetic, totals, parameter normalization, the
sort-guard branches) are independent of tie order; no stability conclusion
is drawn from it (see `isbnDesc_tie_order_bug` for the divergence). -/
def getBooks (books : List Book) (page per_page : Int) (sort order : String) :
    Except String BooksResp :=
  if hasattrBook sort && !isBookColumn sort then
    Except.error "order_by() argument is not a column"
  else
    let sorted := if isBookColumn sort then books.mergeSort (bookLe sort order) else books
    Except.ok
      { success := true
        page := page
        per_page := per_page
        total := books.length
        books := pageSlice sorted (normPage page) (normPerPage per_page) }

/-- Response of the single-book routes (src/part-4/app.py lines 94-100,
132-151): HTTP status plus the JSON fields. -/
structure SingleResp where
  status : Nat
  success : Bool
  error : Option String
  book : Option Book
  deriving DecidableEq

/-- Handler `get_book` (src/part-4/app.py lines 94-100): `Book.query.get(id)`
is primary-key lookup; a missing id yields 404 with an error body. -/
def getBook (books : List Book) (id : Nat) : SingleResp :=
  match books.find? (fun b => b.id == id) with
  | none => { status := 404, success := false, error := some "Book not found", book := none }
  | some b => { status := 200, success := true, error := none, book := some b }

/-- JSON body of a `POST /api/books` request. A field is `none` when its key
is absent (or, for `year`/`isbn`, when `data.get` returns `None`, which the
handler treats identically). -/
structure CreateData where
  title : Option String := none
  author : Option String := none
  year : Option Int := none
  isbn : Option String := none
  deriving DecidableEq

/-- Python truthiness of `data.get(key)` for a string-valued key: falsy when
the key is absent or its value is the empty string. -/
def truthyOpt : Option String → Bool
  | none => false
  | some s => !(s == "")

/-- Response of `create_book`: HTTP status plus the JSON fields. -/
structure CreateResp where
  status : Nat
  success : Bool
  message : Option String
  error : Option String
  book : Option Book
  deriving DecidableEq

/-- Handler `create_book` (src/part-4/app.py lines 104-128). `data = none`
models a JSON `null` body (`not data` is truthy). The handler's own
duplicate-ISBN check runs only when the supplied isbn is truthy. The
`db.session.add`/`db.session.commit` pair (lines 121-122) is subject to the
isbn column's UNIQUE constraint (line 50): committing a row whose non-NULL
isbn equals an existing row's isbn raises IntegrityError, which the handler
does not catch (an uncaught exception, so a 500 with nothing inserted) —
reachable exactly when the body's isbn is the empty string, since
truthiness skips the handler's check for it; SQLite's UNIQUE admits any
number of NULLs, so an absent or null isbn never trips the constraint. On
success the database assigns the next primary key (`newId`) and timestamp
(`now`) and appends the row. Returns the response and the table after the
request. -/
def createBook (books : List Book) (data : Option CreateData) (newId now : Nat) :
    Except String (CreateResp × List Book) :=
  match data with
  | none =>
    Except.ok
      ({ status := 400, success := false, message := none,
         error := some "Title & Author required", book := none }, books)
  | some d =>
    if !truthyOpt d.title || !truthyOpt d.author then
      Except.ok
        ({ status := 400, success := false, message := none,
           error := some "Title & Author required", book := none }, books)
    else if truthyOpt d.isbn && books.any (fun b => b.isbn == d.isbn) then
      Except.ok
        ({ status := 400, success := false, message := none,
           error := some "ISBN already exists", book := none }, books)
    else
      let book : Book :=
        { id := newId, title := d.title.getD "", author := d.author.getD "",
          year := d.year, isbn := d.isbn, created_at := now }
      if d.isbn.isSome && books.any (fun b => b.isbn == d.isbn) then
        Except.error "IntegrityError: UNIQUE constraint failed: book.isbn"
      else
        Except.ok
          ({ status := 201, success := true, message := some "Book created",
             error := none, book := some book }, books ++ [book])

/-- JSON body of a `PUT /api/books/id` request. The outer `Option` is key
presence (`'title' in data`); for the nullable columns the inner `Option` is
the JSON value (`null` allowed). -/
structure UpdateData where
  title : Option String := none
  author : Option String := none
  year : Option (Option Int) := none
  isbn : Option (Option String) := none
  deriving DecidableEq

/-- The field assignments of `update_book` (src/part-4/app.py lines 140-147):
each column present in the body is overwritten, every other column (and the
primary key and `created_at`, which the handler never touches) keeps its
value. -/
def applyUpdate (b : Book) (d : UpdateData) : Book :=
  { b with
    title := d.title.getD b.title
    author := d.author.getD b.author
    year := d.year.getD b.year
    isbn := d.isbn.getD b.isbn }

/-- Handler `update_book` (src/part-4/app.py lines 132-151): 404 on a missing
id (before reading the body); otherwise the row with that primary key is
mutated in place and committed. Returns the response and the table after the
request. -/
def updateBook (books : List Book) (id : Nat) (d : UpdateData) :
    SingleResp × List Book :=
  match books.find? (fun b => b.id == id) with
  | none =>
    ({ status := 404, success := false, error := some "Book not found", book := none }, books)
  | some b =>
    ({ status := 200, success := true, error := none, book := some (applyUpdate b d) },
     books.map (fun x => if x.id == id then applyUpdate x d else x))

/-- Response of `delete_book`: HTTP status plus the JSON fields. -/
structure DeleteResp where
  status : Nat
  success : Bool
  error : Option String
  message : Option String
  deriving DecidableEq

/-- Handler `delete_book` (src/part-4/app.py lines 155-164): 404 on a missing
id with the table untouched; otherwise the row with that primary key is
deleted. -/
def deleteBook (books : List Book) (id : Nat) : DeleteResp × List Book :=
  match books.find? (fun b => b.id == id) with
  | none =>
    ({ status := 404, success := false, error := some "Book not found", message := none }, books)
  | some _ =>
    ({ status := 200, success := true, error := none, message := some "Book deleted" },
     books.filter (fun b => !(b.id == id)))

/-- Matcher for SQL `LIKE` patterns restricted over a suffix scan: `go next s`
is true when `next` accepts some suffix of `s` (the semantics of a leading
`%`). -/
def likePercent (next : List Char → Bool) : List Char → Bool
  | [] => next []
  | c :: s => next (c :: s) || likePercent next s

/-- SQL `LIKE` pattern matching over characters: `%` matches any (possibly
empty) run, `_` matches exactly one character, anything else matches itself. -/
def likeMatch : List Char → List Char → Bool
  | [], s => s.isEmpty
  | '%' :: ps, s => likePercent (likeMatch ps) s
  | '_' :: ps, s =>
    match s with
    | [] => false
    | _ :: s2 => likeMatch ps s2
  | p :: ps, s =>
    match s with
    | [] => false
    | c :: s2 => (p == c) && likeMatch ps s2

/-- Model of SQLAlchemy `column.ilike(pattern)`: case-insensitive `LIKE`,
i.e. `LIKE` after folding both sides to lower case (ASCII folding, as in
SQLite's default `NOCASE` handling). -/
def ilikeB (field pat : String) : Bool :=
  likeMatch (pat.data.map Char.toLower) (field.data.map Char.toLower)

/-- The pattern `f-string '%{needle}%'` built by `search_books`
(src/part-4/app.py lines 177 and 179): the needle is interpolated unescaped,
so wildcard characters in it keep their `LIKE` meaning. -/
def percentWrap (needle : String) : String := "%" ++ needle ++ "%"

/-- Response of `search_books` (src/part-4/app.py lines 185-189). -/
structure SearchResp where
  success : Bool
  count : Nat
  books : List Book
  deriving DecidableEq

/-- Handler `search_books` (src/part-4/app.py lines 168-189). Each supplied,
truthy (non-empty) parameter adds one filter, applied in sequence, hence as a
conjunction. The `year` parameter goes through Python `int(year)` (modelled
by `String.toInt?`); a non-numeric value raises `ValueError`, modelled as
`Except.error`. -/
def searchBooks (books : List Book) (q author year : Option String) :
    Except String SearchResp :=
  let r1 :=
    match q with
    | some t => if t ≠ "" then books.filter (fun b => ilikeB b.title (percentWrap t)) else books
    | none => books
  let r2 :=
    match author with
    | some t => if t ≠ "" then r1.filter (fun b => ilikeB b.author (percentWrap t)) else r1
    | none => r1
  match year with
  | some t =>
    if t ≠ "" then
      match t.toInt? with
      | some n =>
        let r3 := r2.filter (fun b => b.year == some n)
        Except.ok { success := true, count := r3.length, books := r3 }
      | none => Except.error "ValueError: invalid literal for int"
    else Except.ok { success := true, count := r2.length, books := r2 }
  | none => Except.ok { success := true, count := r2.length, books := r2 }

/-- First seeded book of `init_db` (src/part-4/app.py lines 208-213); the
autoincrement primary keys are 1..4 and `created_at` is abstracted to 0. -/
def book1 : Book :=
  { id := 1, title := "Python Crash Course", author := "Eric Matthes",
    year := some 2019, isbn := none, created_at := 0 }

/-- Second seeded book of `init_db`. -/
def book2 : Book :=
  { id := 2, title := "Flask Web Development", author := "Miguel Grinberg",
    year := some 2018, isbn := none, created_at := 0 }

/-- Third seeded book of `init_db`. -/
def book3 : Book :=
  { id := 3, title := "Clean Code", author := "Robert C. Martin",
    year := some 2008, isbn := none, created_at := 0 }

/-- Fourth seeded book of `init_db`. -/
def book4 : Book :=
  { id := 4, title := "Effective Python", author := "Brett Slatkin",
    year := some 2020, isbn := none, created_at := 0 }

/-- The table seeded by `init_db` on an empty database. -/
def seededBooks : List Book := [book1, book2, book3, book4]

/-- A six-book table, already in ascending id order, used as a concrete
state in counterexamples and witnesses. -/
def sixBooks : List Book :=
  [ { id := 1, title := "A", author := "a", year := none, isbn := none, created_at := 0 },
    { id := 2, title := "B", author := "b", year := none, isbn := none, created_at := 0 },
    { id := 3, title := "C", author := "c", year := none, isbn := none, created_at := 0 },
    { id := 4, title := "D", author := "d", year := none, isbn := none, created_at := 0 },
    { id := 5, title := "E", author := "e", year := none, isbn := none, created_at := 0 },
    { id := 6, title := "F", author := "f", year := none, isbn := none, created_at := 0 } ]

/-- The create body `JSON title X, author A with title the empty string`,
used to exercise the Python falsy check in `create_book`. -/
def emptyTitleBody : CreateData :=
  { title := some "", author := some "A", year := none, isbn := none }

/-- A table holding a book whose isbn is the empty string. This state is
reachable through the API itself: a first POST with isbn equal to the empty
string passes the falsy duplicate check and commits (no other empty isbn
exists yet). It exercises the UNIQUE-constraint error path of a second such
insert. -/
def dupIsbnBooks : List Book :=
  [ { id := 1, title := "First", author := "A", year := none, isbn := some "", created_at := 0 } ]

/-- The response sequence the engine produces for
`GET /api/books?sort=isbn&order=desc` on the seeded table: `ORDER BY isbn
DESC` is satisfied by a reverse scan of the unique isbn index, whose entries
are ordered by (isbn, rowid), so the all-NULL-isbn seeded rows come back in
reverse insertion order. The handler source does not determine this order —
it is the engine's choice, and SQLite documents the order of rows with equal
sort keys as unspecified — so this sequence is recorded from the engine's
execution at this input, not derived from `get_books`. -/
def isbnDescObserved : List Book := [book4, book3, book2, book1]

/-- The `Product` model of part 5 (src/part-5/app.py lines 56-61). -/
structure Product where
  id : Nat
  name : String
  price : Float
  stock : Int
  description : String

/-- The SQLAlchemy exception class caught by the part-5 routes:
`OperationalError` is what the driver raises when the persistence layer is
unreachable. -/
inductive DbError where
  | operationalError
  deriving DecidableEq

/-- The page rendered by part-5 `index`: template name, template context
(products, detected database type) and the flash messages accumulated during
the request, each a `(message, category)` pair. -/
structure IndexPage where
  status : Nat
  template : String
  products : List Product
  flashes : List (String × String)
  db_type : String

/-- Boolean contiguous-subsequence test: `containsSub needle hay` is true
when `needle` occurs contiguously inside `hay` (Python's `in` on strings). -/
def containsSub (needle : List Char) : List Char → Bool
  | [] => needle.isEmpty
  | c :: s => needle.isPrefixOf (c :: s) || containsSub needle s

/-- Database-type detection of `index` (src/part-5/app.py lines 78-87):
substring tests on the lowercased `DATABASE_URL`. -/
def detectDbType (url : String) : String :=
  let u := url.data.map Char.toLower
  if containsSub "postgresql".data u || containsSub "postgres".data u then "PostgreSQL"
  else if containsSub "mysql".data u then "MySQL"
  else if containsSub "sqlite".data u then "SQLite"
  else "Unknown"

/-- Handler `index` (src/part-5/app.py lines 70-94). The query
`Product.query.all()` either returns the rows or raises `OperationalError`;
the handler is the only consumer of that outcome, so it takes the outcome as
input. The `except` arm replaces the rows with `[]` and flashes a danger
message; both arms fall through to the same 200 render, so no exception
escapes the handler. -/
def index (dbProducts : Except DbError (List Product)) (url : String) : IndexPage :=
  match dbProducts with
  | Except.ok ps =>
    { status := 200, template := "index.html", products := ps,
      flashes := [], db_type := detectDbType url }
  | Except.error DbError.operationalError =>
    { status := 200, template := "index.html", products := [],
      flashes := [("Database connection failed!", "danger")], db_type := detectDbType url }

/-- Substring test used to state the specification's reading of the search
filters: `needle` occurs, case-insensitively, as a contiguous substring.
This definition follows the spec's words, for comparison with the
`ilike`-based behaviour translated from the source. -/
def substrCI (hay needle : String) : Bool :=
  containsSub (needle.data.map Char.toLower) (hay.data.map Char.toLower)

/-- The conjunction of the filter predicates supplied to `search_books`:
a truthy `q` must `ilike`-match the title, a truthy `author` must
`ilike`-match the author, and a truthy `year` must equal the record's year
after integer parsing. The unparsable-year arm is vacuously `true`: the
handler raises before any filtering in that case, so the arm is never
reached under a successful response. -/
def searchPred (q a y : Option String) (b : Book) : Bool :=
  (match q with
   | some t => if t ≠ "" then ilikeB b.title (percentWrap t) else true
   | none => true) &&
  (match a with
   | some t => if t ≠ "" then ilikeB b.author (percentWrap t) else true
   | none => true) &&
  (match y with
   | some t =>
     if t ≠ "" then
       match t.toInt? with
       | some n => b.year == some n
       | none => true
     else true
   | none => true)

/-- First of two books sharing an author, for the stability witness. -/
def fowlerA : Book :=
  { id := 1, title := "Refactoring", author := "Fowler", year := some 1999, isbn := none, created_at := 0 }

/-- Second of two books sharing an author, for the stability witness. -/
def fowlerB : Book :=
  { id := 2, title := "Patterns", author := "Fowler", year := some 2002, isbn := none, created_at := 0 }

/-- A table with two books by the same author (a sort-key tie on `author`),
used as a concrete state for the stability witness. -/
def tieBooks : List Book :=
  [ fowlerA, fowlerB,
    { id := 3, title := "Clean Code", author := "Martin", year := some 2008, isbn := none, created_at := 0 } ]

/-! ### Order-theoretic facts about the sort comparators -/

/-- Transitivity of the nullable-column comparison. -/
theorem optLe_trans {α : Type} [LinearOrder α] (x y z : Option α)
    (h1 : optLe x y = true) (h2 : optLe y z = true) : optLe x z = true := by
  match x, y, z with
  | none, _, _ => rfl
  | some a, none, _ => exact absurd h1 (by simp [optLe])
  | some a, some b, none => exact absurd h2 (by simp [optLe])
  | some a, some b, some c =>
    simp only [optLe, decide_eq_true_eq] at h1 h2 ⊢
    exact le_trans h1 h2

/-- Totality of the nullable-column comparison. -/
theorem optLe_total {α : Type} [LinearOrder α] (x y : Option α) :
    (optLe x y || optLe y x) = true := by
  match x, y with
  | none, _ => rfl
  | some a, none => rfl
  | some a, some b =>
    simp only [optLe, Bool.or_eq_true, decide_eq_true_eq]
    exact le_total a b

/-- Reflexivity of the nullable-column comparison. -/
theorem optLe_refl {α : Type} [LinearOrder α] (x : Option α) : optLe x x = true := by
  match x with
  | none => rfl
  | some a => simp [optLe]

/-- Transitivity of the per-column ascending comparison. -/
theorem colLe_trans (f : String) (a b c : Book)
    (h1 : colLe f a b = true) (h2 : colLe f b c = true) : colLe f a c = true := by
  simp only [colLe] at h1 h2 ⊢
  split_ifs at h1 h2 ⊢ <;>
    first
      | rfl
      | exact decide_eq_true (le_trans (of_decide_eq_true h1) (of_decide_eq_true h2))
      | exact optLe_trans _ _ _ h1 h2

/-- Totality of the per-column ascending comparison. -/
theorem colLe_total (f : String) (a b : Book) :
    (colLe f a b || colLe f b a) = true := by
  simp only [colLe]
  split_ifs <;>
    first
      | rfl
      | (simp only [Bool.or_eq_true, decide_eq_true_eq]; exact le_total _ _)
      | exact optLe_total _ _

/-- Transitivity of the comparison handed to the sorter by `get_books`. -/
theorem bookLe_trans (f o : String) (a b c : Book)
    (h1 : bookLe f o a b = true) (h2 : bookLe f o b c = true) : bookLe f o a c = true := by
  simp only [bookLe] at h1 h2 ⊢
  split_ifs at h1 h2 ⊢
  · exact colLe_trans f c b a h2 h1
  · exact colLe_trans f a b c h1 h2

/-- Totality of the comparison handed to the sorter by `get_books`. -/
theorem bookLe_total (f o : String) (a b : Book) :
    (bookLe f o a b || bookLe f o b a) = true := by
  simp only [bookLe]
  split_ifs
  · exact colLe_total f b a
  · exact colLe_total f a b

/-- Books with equal sort-column values compare `true` in both directions. -/
theorem sortFieldEq_colLe (f : String) (a b : Book) (h : sortFieldEq f a b = true) :
    colLe f a b = true ∧ colLe f b a = true := by
  simp only [sortFieldEq, beq_iff_eq] at h
  simp only [colLe]
  split_ifs at h ⊢ <;> simp_all [optLe_refl, le_refl]

/-- A tie on the sort column makes the selected comparison hold in either
requested direction. -/
theorem sortFieldEq_bookLe (f o : String) (a b : Book) (h : sortFieldEq f a b = true) :
    bookLe f o a b = true := by
  have hb := sortFieldEq_colLe f a b h
  simp only [bookLe]
  split_ifs
  · exact hb.2
  · exact hb.1

/-- Every column name is also an attribute name. -/
theorem isBookColumn_hasattr (s : String) (h : isBookColumn s = true) :
    hasattrBook s = true := by
  simp [hasattrBook, h]

/-! ### Claims -/

/-- Claim C2: for every collection state, the `total` field returned by
`GET /api/books` equals the count of records matching the filter predicates
before pagination (there is no filter on this route, so the whole
collection), and its value is the same for every choice of `page` and
`per_page`. -/
theorem getBooks_total_invariant (books : List Book) (p1 pp1 p2 pp2 : Int)
    (sort order : String) (r1 r2 : BooksResp)
    (h1 : getBooks books p1 pp1 sort order = Except.ok r1)
    (h2 : getBooks books p2 pp2 sort order = Except.ok r2) :
    r1.total = books.length ∧ r2.total = r1.total := by
  simp only [getBooks] at h1 h2
  split_ifs at h1 h2 <;>
    first
      | exact Except.noConfusion h1
      | (injection h1 with h1
         injection h2 with h2
         subst h1
         subst h2
         exact ⟨rfl, rfl⟩)

/-- Witness for C2 at a concrete state: two different page windows report
the same pre-pagination total. -/
theorem getBooks_total_invariant_witness :
    getBooks seededBooks 1 2 "title" "asc" =
      Except.ok { success := true, page := 1, per_page := 2, total := seededBooks.length,
                  books := pageSlice (seededBooks.mergeSort (bookLe "title" "asc"))
                    (normPage 1) (normPerPage 2) } ∧
    getBooks seededBooks 3 1 "title" "asc" =
      Except.ok { success := true, page := 3, per_page := 1, total := seededBooks.length,
                  books := pageSlice (seededBooks.mergeSort (bookLe "title" "asc"))
                    (normPage 3) (normPerPage 1) } ∧
    ({ success := true, page := 1, per_page := 2, total := seededBooks.length,
       books := pageSlice (seededBooks.mergeSort (bookLe "title" "asc"))
         (normPage 1) (normPerPage 2) } : BooksResp).total = seededBooks.length := by
  have h1 : getBooks seededBooks 1 2 "title" "asc" =
      Except.ok { success := true, page := 1, per_page := 2, total := seededBooks.length,
                  books := pageSlice (seededBooks.mergeSort (bookLe "title" "asc"))
                    (normPage 1) (normPerPage 2) } := rfl
  have h2 : getBooks seededBooks 3 1 "title" "asc" =
      Except.ok { success := true, page := 3, per_page := 1, total := seededBooks.length,
                  books := pageSlice (seededBooks.mergeSort (bookLe "title" "asc"))
                    (normPage 3) (normPerPage 1) } := rfl
  exact ⟨h1, h2, (getBooks_total_invariant seededBooks 1 2 3 1 "title" "asc" _ _ h1 h2).1⟩

/-- Claim C4 as amended: a `sort` value that names no attribute of the `Book` class
at all is silently ignored: the filtered result keeps the collection's
natural order and the request succeeds. (A value that names a non-column
attribute, such as `to_dict`, is NOT ignored: it is passed to `order_by`
and the request errors, see the counterexample.) -/
theorem getBooks_unknownSort_ignored (books : List Book) (page pp : Int)
    (sort order : String) (h : hasattrBook sort = false) :
    getBooks books page pp sort order =
      Except.ok { success := true, page := page, per_page := pp, total := books.length,
                  books := pageSlice books (normPage page) (normPerPage pp) } := by
  have hc : isBookColumn sort = false := by
    cases hx : isBookColumn sort
    · rfl
    · rw [isBookColumn_hasattr sort hx] at h
      exact Bool.noConfusion h
  simp [getBooks, h, hc]

/-- Witness for the amended C4: `genre` names no attribute of `Book`; the
request succeeds and no sort is applied. -/
theorem getBooks_unknownSort_ignored_witness :
    hasattrBook "genre" = false ∧
    getBooks seededBooks 2 2 "genre" "asc" =
      Except.ok { success := true, page := 2, per_page := 2, total := seededBooks.length,
                  books := pageSlice seededBooks (normPage 2) (normPerPage 2) } :=
  ⟨rfl, getBooks_unknownSort_ignored seededBooks 2 2 "genre" "asc" rfl⟩

/-- Counterexample to C4 as stated: `to_dict` does not name a field of the
`Book` entity, yet `GET /api/books?sort=to_dict` is not silently ignored —
`hasattr(Book, 'to_dict')` is true, so the non-column attribute reaches
`order_by`, which raises instead of returning a successful response. -/
theorem getBooks_toDict_cx :
    isBookColumn "to_dict" = false ∧ hasattrBook "to_dict" = true ∧
    getBooks seededBooks 1 5 "to_dict" "asc" =
      Except.error "order_by() argument is not a column" :=
  ⟨rfl, rfl, rfl⟩

/-- Claim C7: for every id absent from the collection, `GET`, `PUT` and `DELETE`
on `/api/books/id` each return 404 with `success = false` and an error
message, and the update and delete leave the collection unchanged. -/
theorem missingId_notFound (books : List Book) (id : Nat) (d : UpdateData)
    (h : books.all (fun b => b.id != id) = true) :
    getBook books id =
      { status := 404, success := false, error := some "Book not found", book := none } ∧
    updateBook books id d =
      ({ status := 404, success := false, error := some "Book not found", book := none }, books) ∧
    deleteBook books id =
      ({ status := 404, success := false, error := some "Book not found", message := none }, books) := by
  have hf : books.find? (fun b => b.id == id) = none := by
    rw [List.find?_eq_none]
    intro b hb
    have := List.all_eq_true.mp h b hb
    simpa using this
  simp [getBook, updateBook, deleteBook, hf]

/-- Witness for C7: id 99 is not in the seeded collection; all three routes
return the 404 body and the collection survives the delete. -/
theorem missingId_notFound_witness :
    seededBooks.all (fun b => b.id != 99) = true ∧
    (getBook seededBooks 99 =
      { status := 404, success := false, error := some "Book not found", book := none } ∧
    updateBook seededBooks 99 { title := some "X" } =
      ({ status := 404, success := false, error := some "Book not found", book := none }, seededBooks) ∧
    deleteBook seededBooks 99 =
      ({ status := 404, success := false, error := some "Book not found", message := none }, seededBooks)) :=
  ⟨by decide, missingId_notFound seededBooks 99 { title := some "X" } (by decide)⟩

/-- Claim C9: when the persistence layer is unreachable (the query raises
`OperationalError`), the part-5 index route still renders: the handler
catches the error, flashes a danger message, renders with an empty product
list, and returns 200 — the error does not escape the handler. -/
theorem index_connectionFailure (url : String) :
    (index (Except.error DbError.operationalError) url).status = 200 ∧
    (index (Except.error DbError.operationalError) url).template = "index.html" ∧
    (index (Except.error DbError.operationalError) url).products = [] ∧
    (index (Except.error DbError.operationalError) url).flashes =
      [("Database connection failed!", "danger")] :=
  ⟨rfl, rfl, rfl, rfl⟩

/-- Claim C1: for every collection state and valid (positive) `page` and
`per_page`, `GET /api/books` returns exactly the contiguous window
`[(page-1)*per_page, page*per_page)` of the sorted collection, hence at most
`per_page` items, and a window starting at or beyond the total yields an
empty list with a successful (200) response. -/
theorem getBooks_page_window (books : List Book) (page per_page : Int)
    (sort order : String)
    (hp : 1 ≤ page) (hpp : 1 ≤ per_page) (hcol : isBookColumn sort = true) :
    getBooks books page per_page sort order =
      Except.ok { success := true, page := page, per_page := per_page, total := books.length,
                  books := pageSlice (books.mergeSort (bookLe sort order)) page per_page } ∧
    (pageSlice (books.mergeSort (bookLe sort order)) page per_page).length ≤ per_page.toNat ∧
    (books.length ≤ ((page - 1) * per_page).toNat →
      pageSlice (books.mergeSort (bookLe sort order)) page per_page = []) := by
  have hnp : normPage page = page := by
    unfold normPage
    rw [if_neg (by omega)]
  have hnpp : normPerPage per_page = per_page := by
    unfold normPerPage
    rw [if_neg (by omega)]
  have hattr := isBookColumn_hasattr sort hcol
  refine ⟨?_, ?_, ?_⟩
  · simp [getBooks, hcol, hattr, hnp, hnpp]
  · simp only [pageSlice, List.length_take]
    exact Nat.min_le_left _ _
  · intro h
    unfold pageSlice
    rw [List.drop_eq_nil_of_le]
    · exact List.take_nil
    · rw [List.length_mergeSort]
      exact h

/-- Witness for C1: page 2 of size 2 over the six-book state. -/
theorem getBooks_page_window_witness :
    (1 : Int) ≤ 2 ∧ (1 : Int) ≤ 2 ∧ isBookColumn "id" = true ∧
    (getBooks sixBooks 2 2 "id" "asc" =
      Except.ok { success := true, page := 2, per_page := 2, total := sixBooks.length,
                  books := pageSlice (sixBooks.mergeSort (bookLe "id" "asc")) 2 2 } ∧
    (pageSlice (sixBooks.mergeSort (bookLe "id" "asc")) 2 2).length ≤ (2 : Int).toNat ∧
    (sixBooks.length ≤ ((2 - 1) * 2 : Int).toNat →
      pageSlice (sixBooks.mergeSort (bookLe "id" "asc")) 2 2 = [])) :=
  ⟨by decide, by decide, by decide,
   getBooks_page_window sixBooks 2 2 "id" "asc" (by decide) (by decide) (by decide)⟩

/-- Claim C3 as amended: a request with `page <= 0` or `per_page <= 0` does not
fail: the pagination layer normalizes `page` to 1 and `per_page` to the
library default 20 (not the handler default 5), and the 200 response still
carries `total`, `page`, `per_page` (echoing the raw request values) and the
record sequence. -/
theorem getBooks_normalize_params (books : List Book) (page pp : Int)
    (sort order : String) (hcol : isBookColumn sort = true) :
    getBooks books page pp sort order =
      Except.ok { success := true, page := page, per_page := pp, total := books.length,
                  books := pageSlice (books.mergeSort (bookLe sort order))
                    (normPage page) (normPerPage pp) } ∧
    (page ≤ 0 → normPage page = 1) ∧
    (pp ≤ 0 → normPerPage pp = 20) := by
  have hattr := isBookColumn_hasattr sort hcol
  refine ⟨by simp [getBooks, hcol, hattr], ?_, ?_⟩
  · intro h
    unfold normPage
    rw [if_pos (by omega)]
  · intro h
    unfold normPerPage
    rw [if_pos (by omega)]

/-- Witness for the amended C3: `page = 0`, `per_page = -3` are normalized
to 1 and 20 and the request succeeds. -/
theorem getBooks_normalize_params_witness :
    isBookColumn "id" = true ∧
    normPage 0 = 1 ∧
    normPerPage (-3) = 20 ∧
    getBooks sixBooks 0 (-3) "id" "asc" =
      Except.ok { success := true, page := 0, per_page := -3, total := sixBooks.length,
                  books := pageSlice (sixBooks.mergeSort (bookLe "id" "asc"))
                    (normPage 0) (normPerPage (-3)) } :=
  ⟨by decide,
   (getBooks_normalize_params sixBooks 0 (-3) "id" "asc" (by decide)).2.1 (by decide),
   (getBooks_normalize_params sixBooks 0 (-3) "id" "asc" (by decide)).2.2 (by decide),
   (getBooks_normalize_params sixBooks 0 (-3) "id" "asc" (by decide)).1⟩

/-- Counterexample to C3 as stated: the claim says `per_page <= 0` is
normalized to the default 5, which would cap the returned items at 5; with
`per_page = -1` on a six-book collection the code returns all six books
(pagination normalizes to the library default 20, not 5). -/
theorem getBooks_perPage_default_cx :
    getBooks sixBooks 1 (-1) "id" "asc" =
      Except.ok { success := true, page := 1, per_page := -1, total := 6, books := sixBooks } ∧
    ¬ (sixBooks.length ≤ 5) := by
  constructor
  · have h : sixBooks.mergeSort (bookLe "id" "asc") = sixBooks :=
      List.mergeSort_of_sorted (by decide)
    simp only [getBooks]
    rw [h]
    rfl
  · decide

/-- Claim C5 evaluated at its failing input (code bug): the specification
requires a stable sort, but the handler delegates tie order to the engine.
On the seeded table every book has a NULL isbn, so all four records tie on
the sort column `isbn`; the pair (book1, book2) appears in this order in the
collection, and the stable order the claim requires keeps it (the in-file
stable model returns the collection unchanged), yet the engine's response
for `sort=isbn&order=desc` is the books in reverse insertion order, where
that pair is reversed. The observed sequence is itself a valid
isbn-descending ordering of the collection, so nothing in the handler rules
it out: the code provides no stable sort. -/
theorem isbnDesc_tie_order_bug :
    sortFieldEq "isbn" book1 book2 = true ∧
    List.Sublist [book1, book2] seededBooks ∧
    List.Pairwise (fun a b => bookLe "isbn" "desc" a b = true) isbnDescObserved ∧
    List.Perm isbnDescObserved seededBooks ∧
    ¬ List.Sublist [book1, book2] isbnDescObserved ∧
    seededBooks.mergeSort (bookLe "isbn" "desc") = seededBooks ∧
    isbnDescObserved ≠ seededBooks := by
  refine ⟨by decide, by decide, by decide, by decide, by decide, ?_, by decide⟩
  exact List.mergeSort_of_sorted (by decide)

/-- Claim C6 as amended: `POST /api/books` returns 400 exactly when title or
author is absent or empty (Python falsy), or when a non-empty isbn equals an
existing book's isbn, and every 400 — including a `null` body — leaves the
collection unchanged. Otherwise, if the body's isbn is the empty string
while some existing book's isbn is also the empty string (a state reachable
through the API, since the falsy check skips empty isbns), the insert
violates the UNIQUE isbn constraint: the handler raises IntegrityError — an
uncaught exception, a 500, neither 400 nor 201 — and nothing is inserted.
In every remaining case it returns 201 and appends exactly the created
book. The four implications over a body are mutually exclusive and
exhaustive. -/
theorem createBook_validation (books : List Book) (d : CreateData) (newId now : Nat) :
    ((truthyOpt d.title && truthyOpt d.author) = false →
      createBook books (some d) newId now =
        Except.ok ({ status := 400, success := false, message := none,
                     error := some "Title & Author required", book := none }, books)) ∧
    ((truthyOpt d.title && truthyOpt d.author) = true →
     (truthyOpt d.isbn && books.any (fun b => b.isbn == d.isbn)) = true →
      createBook books (some d) newId now =
        Except.ok ({ status := 400, success := false, message := none,
                     error := some "ISBN already exists", book := none }, books)) ∧
    ((truthyOpt d.title && truthyOpt d.author) = true →
     d.isbn = some "" →
     books.any (fun b => b.isbn == d.isbn) = true →
      createBook books (some d) newId now =
        Except.error "IntegrityError: UNIQUE constraint failed: book.isbn") ∧
    ((truthyOpt d.title && truthyOpt d.author) = true →
     (truthyOpt d.isbn && books.any (fun b => b.isbn == d.isbn)) = false →
     (d.isbn.isSome && books.any (fun b => b.isbn == d.isbn)) = false →
      createBook books (some d) newId now =
        Except.ok ({ status := 201, success := true, message := some "Book created",
                     error := none,
                     book := some { id := newId, title := d.title.getD "",
                                    author := d.author.getD "", year := d.year,
                                    isbn := d.isbn, created_at := now } },
                   books ++ [{ id := newId, title := d.title.getD "",
                               author := d.author.getD "", year := d.year,
                               isbn := d.isbn, created_at := now }])) ∧
    createBook books none newId now =
      Except.ok ({ status := 400, success := false, message := none,
                   error := some "Title & Author required", book := none }, books) := by
  refine ⟨?_, ?_, ?_, ?_, rfl⟩
  · intro hTA
    simp only [createBook]
    split_ifs <;> first | rfl | (exfalso; simp_all)
  · intro hTA hdup
    simp only [createBook]
    split_ifs <;> first | rfl | (exfalso; simp_all)
  · intro hTA hisbn hany
    simp only [createBook]
    split_ifs <;> first | rfl | (exfalso; simp_all [truthyOpt])
  · intro hTA hdup hcommit
    simp only [createBook]
    split_ifs <;> first | rfl | (exfalso; simp_all)

/-- Witness for the amended C6, at the claim's own example and at the
constraint input: title `X` with no author is rejected with 400 leaving the
collection unchanged, and inserting isbn `""` when a row with isbn `""`
already exists raises IntegrityError with nothing inserted. -/
theorem createBook_validation_witness :
    (truthyOpt (some "X") && truthyOpt none) = false ∧
    createBook seededBooks (some { title := some "X" }) 5 0 =
      Except.ok ({ status := 400, success := false, message := none,
                   error := some "Title & Author required", book := none }, seededBooks) ∧
    createBook dupIsbnBooks
        (some { title := some "T", author := some "A", year := none, isbn := some "" }) 2 0 =
      Except.error "IntegrityError: UNIQUE constraint failed: book.isbn" :=
  ⟨by decide,
   (createBook_validation seededBooks { title := some "X" } 5 0).1 (by decide),
   (createBook_validation dupIsbnBooks
      { title := some "T", author := some "A", year := none, isbn := some "" } 2 0).2.2.1
     (by decide) rfl (by decide)⟩

/-- Counterexample to C6 as stated: a body carrying BOTH required keys
(title present but equal to the empty string, author present) and no isbn is
still rejected with 400, so 400 does not happen exactly on missing fields or
duplicate isbn. -/
theorem createBook_emptyTitle_cx :
    emptyTitleBody.title = some "" ∧
    emptyTitleBody.author = some "A" ∧
    emptyTitleBody.isbn = none ∧
    createBook seededBooks (some emptyTitleBody) 5 0 =
      Except.ok ({ status := 400, success := false, message := none,
                   error := some "Title & Author required", book := none }, seededBooks) :=
  ⟨rfl, rfl, rfl, rfl⟩

/-- Claim C8 as amended: whenever `GET /api/books/search` answers successfully, the
returned records are exactly the members of the collection satisfying the
conjunction of the supplied filter predicates — where `q` and `author` are
interpreted as case-insensitive SQL LIKE patterns wrapped in percent signs
(plain substring match only when the parameter contains no wildcard), and a
supplied `year` must parse as an integer and match exactly — the result is
in collection order, and `count` equals the number of returned records. -/
theorem searchBooks_conjunction (books : List Book) (q a y : Option String)
    (r : SearchResp) (h : searchBooks books q a y = Except.ok r) :
    r.count = r.books.length ∧
    List.Sublist r.books books ∧
    (∀ b : Book, b ∈ r.books ↔ (b ∈ books ∧ searchPred q a y b = true)) := by
  rcases q with _ | tq <;> rcases a with _ | ta <;> rcases y with _ | ty <;>
    simp only [searchBooks] at h <;>
    try (rcases hti : String.toInt? ty with _ | n <;> rw [hti] at h)
  all_goals try split_ifs at h
  all_goals
    first
      | exact Except.noConfusion h
      | (injection h with h
         subst h
         refine ⟨rfl, ?_, ?_⟩ <;>
           first
             | exact List.Sublist.refl _
             | exact List.filter_sublist _
             | exact (List.filter_sublist _).trans (List.filter_sublist _)
             | exact ((List.filter_sublist _).trans (List.filter_sublist _)).trans
                 (List.filter_sublist _)
             | (intro b
                simp_all [searchPred, List.mem_filter, Bool.and_eq_true]
                try tauto))

/-- Witness for the amended C8, at the claim's own example: author `Martin`
over the seeded books returns exactly the Clean Code record, with count 1. -/
theorem searchBooks_conjunction_witness :
    searchBooks seededBooks none (some "Martin") none =
      Except.ok { success := true, count := 1, books := [book3] } ∧
    ({ success := true, count := 1, books := [book3] } : SearchResp).count =
      ({ success := true, count := 1, books := [book3] } : SearchResp).books.length :=
  ⟨rfl,
   (searchBooks_conjunction seededBooks none (some "Martin") none
      { success := true, count := 1, books := [book3] } rfl).1⟩

/-- Counterexample to C8 as stated: with `author = %` every seeded book is
returned (the parameter is a LIKE pattern, `%` matches everything), although
`%` is not a substring of any seeded author — so the filters are not
case-insensitive substring tests. -/
theorem searchBooks_substring_cx :
    searchBooks seededBooks none (some "%") none =
      Except.ok { success := true, count := 4, books := seededBooks } ∧
    book1 ∈ seededBooks ∧
    substrCI book1.author "%" = false :=
  ⟨rfl, by decide, rfl⟩
